import Mathlib

/-!
Shallow embedding of the reconciliation and metrics-computation engine of
`src/dashboard_simple.py` (functions `calculate_metrics` and the
classification logic of `render_comparison`), together with theorems
settling the specification claims about it.

Modelling conventions:
* Python dicts of record counts become association lists `List (String × ℕ)`;
  `dict.get(k, 0)` becomes `getCount`, which defaults to 0 for absent keys.
* Python floats become `ℚ` (exact rationals standing for the numeric values
  the code manipulates).
* The optional pipeline report becomes a structure with one `Option` field
  per section the code inspects (`validation_results` with its
  `summary.overall_success_rate` and `concept_coverage`, and
  `phase_performance`).  In the code, `report and K in report` holds exactly
  when key `K` is present (presence of a key makes the dict truthy), so each
  such test is modelled by `Option.isSome` of the corresponding field.
* A `concept_coverage` entry value is an arbitrary object in Python; the code
  checks `isinstance(stats, dict) and mapped_rate in stats`, and the stored
  `mapped_rate` value may itself be numeric or not.  This is modelled by
  `CoverageEntry` (a dict with an optional `mapped_rate` of type `JVal`, or a
  non-dict value) with `JVal` either a number or a string.
* `sum(rates)` in Python starts from the int 0 and raises `TypeError` as soon
  as a non-numeric element is added; `sumRates` returns `none` in that case,
  and `calculate_metrics` as a whole is therefore modelled as returning
  `Option Metrics`, `none` meaning an uncaught exception.
-/

namespace DashboardSimple

/-- A JSON-ish scalar as it can appear as a `mapped_rate` value: a number, or
a non-numeric value (represented by a string). -/
inductive JVal where
  | num (q : ℚ)
  | str (s : String)
deriving DecidableEq

/-- Is this value numeric? -/
def JVal.isNum : JVal → Bool
  | .num _ => true
  | .str _ => false

/-- One value of the `concept_coverage` mapping: either a dict (with the
`mapped_rate` key optionally present), or some non-dict value. -/
inductive CoverageEntry where
  | dict (mappedRate : Option JVal)
  | nondict
deriving DecidableEq

/-- A Python dict from table name to record count, as an association list. -/
abbrev CountMap := List (String × ℕ)

/-- `m.get(k, 0)` on a Python dict of counts: 0 when the key is absent. -/
def getCount (m : CountMap) (k : String) : ℕ :=
  (m.lookup k).getD 0

/-- The `validation_results` section of the pipeline report.
`overallSuccessRate` models the chained access
`report[validation_results].get(summary, \x7b\x7d).get(overall_success_rate, 0.95)`:
it is `some q` when `summary.overall_success_rate` is present with numeric
value `q`, and `none` when `summary` or the rate is missing.
`conceptCoverage` models `report[validation_results].get(concept_coverage, \x7b\x7d)`;
a missing key and an empty dict are both the empty list, exactly as the code
conflates them (both are falsy). -/
structure ValidationResults where
  overallSuccessRate : Option ℚ
  conceptCoverage : List (String × CoverageEntry)
deriving DecidableEq

/-- The pipeline report.  Each field is `some _` exactly when the key is
present in the report dict, which also makes the dict truthy, so
`report and K in report` is `isSome`.  An entirely absent report file yields
the empty dict, i.e. both fields `none`. -/
structure PipelineReport where
  validationResults : Option ValidationResults
  phasePerformance : Option (List (String × Option ℚ))
deriving DecidableEq

/-- The empty pipeline report dict (no report file found). -/
def emptyReport : PipelineReport := ⟨none, none⟩

/-- The input of `calculate_metrics`: the dict returned by `load_real_data`,
with the Synthea (source) counts, the OMOP (target) counts and the pipeline
report. -/
structure Data where
  synthea : CountMap
  omop : CountMap
  report : PipelineReport
deriving DecidableEq

/-- The success-rate computation of `calculate_metrics`
(src/dashboard_simple.py lines 114-122): if the report has
`validation_results`, use `summary.overall_success_rate` with default 0.95;
otherwise, if `patients > 0`, use `min(person / patients, 1.0)`, else 0.95. -/
def successRate (d : Data) : ℚ :=
  match d.report.validationResults with
  | some v => v.overallSuccessRate.getD (19/20)
  | none =>
    if 0 < getCount d.synthea "patients" then
      min ((getCount d.omop "person" : ℚ) / (getCount d.synthea "patients" : ℚ)) 1
    else 19/20

/-- `sum(phase.get(duration_seconds, 0) for phase in phase_performance.values())`. -/
def phaseSum (phases : List (String × Option ℚ)) : ℚ :=
  (phases.map (fun p => p.2.getD 0)).sum

/-- The processing-time computation of `calculate_metrics`
(src/dashboard_simple.py lines 124-131): sum the declared phase durations if
`phase_performance` is present, and keep that sum only when it is positive;
in every other case the default 180. -/
def processingTime (d : Data) : ℚ :=
  match d.report.phasePerformance with
  | some phases => if 0 < phaseSum phases then phaseSum phases else 180
  | none => 180

/-- The rates list collected by `calculate_metrics` lines 142-145: the
`mapped_rate` value of every coverage entry that is a dict and has the key,
whatever the type of that value. -/
def collectRates (cc : List (String × CoverageEntry)) : List JVal :=
  cc.filterMap fun p =>
    match p.2 with
    | .dict (some v) => some v
    | _ => none

/-- Python `sum` over the collected rates: starts from 0 and raises
(`none`) as soon as a non-numeric element is added. -/
def sumRates : List JVal → Option ℚ
  | [] => some 0
  | .num q :: vs => (sumRates vs).map (fun s => q + s)
  | .str _ :: _ => none

/-- The concept-mapping-rate computation of `calculate_metrics`
(src/dashboard_simple.py lines 136-147): default 0.92; when the report has
`validation_results` with a non-empty `concept_coverage` and at least one
collected rate, the mean `sum(rates) / len(rates)`; `none` models the
`TypeError` escaping when a collected rate is not numeric. -/
def conceptRate (d : Data) : Option ℚ :=
  match d.report.validationResults with
  | none => some (23/25)
  | some v =>
    if v.conceptCoverage.isEmpty then some (23/25)
    else
      let rates := collectRates v.conceptCoverage
      if rates.isEmpty then some (23/25)
      else (sumRates rates).map (fun s => s / (rates.length : ℚ))

/-- The dict returned by `calculate_metrics` (src/dashboard_simple.py lines
149-167). -/
structure Metrics where
  totalPatients : ℕ
  totalEncounters : ℕ
  totalConditions : ℕ
  totalMedications : ℕ
  totalProcedures : ℕ
  totalObservations : ℕ
  omopPersons : ℕ
  omopVisits : ℕ
  omopConditions : ℕ
  omopDrugs : ℕ
  omopProcedures : ℕ
  omopMeasurements : ℕ
  omopObservations : ℕ
  successRate : ℚ
  processingTime : ℚ
  dbConnected : Bool
  conceptRate : ℚ
deriving DecidableEq

/-- `calculate_metrics` (src/dashboard_simple.py lines 92-167).  `none`
models the uncaught exception raised by the concept-rate computation when a
collected `mapped_rate` value is not numeric; in every other case the
returned metrics dict.  `db_connected` is `len(omop) > 0` (line 134). -/
def calculateMetrics (d : Data) : Option Metrics :=
  match conceptRate d with
  | none => none
  | some cr =>
    some
      { totalPatients := getCount d.synthea "patients"
        totalEncounters := getCount d.synthea "encounters"
        totalConditions := getCount d.synthea "conditions"
        totalMedications := getCount d.synthea "medications"
        totalProcedures := getCount d.synthea "procedures"
        totalObservations := getCount d.synthea "observations"
        omopPersons := getCount d.omop "person"
        omopVisits := getCount d.omop "visit_occurrence"
        omopConditions := getCount d.omop "condition_occurrence"
        omopDrugs := getCount d.omop "drug_exposure"
        omopProcedures := getCount d.omop "procedure_occurrence"
        omopMeasurements := getCount d.omop "measurement"
        omopObservations := getCount d.omop "observation"
        successRate := successRate d
        processingTime := processingTime d
        dbConnected := decide (0 < d.omop.length)
        conceptRate := cr }

/-- The integrity classification strings of the comparison table built by
`render_comparison` (src/dashboard_simple.py lines 467-538). -/
inductive Integrity where
  | exact100
  | revisar
  | dividido
  | transformado
  | sinDatos
deriving DecidableEq

/-- One row of the comparison table of `render_comparison`.  `targetCount`
is `none` for the allergies row, whose OMOP cell is the literal text
"Incluido en observation" rather than a count. -/
structure CompRow where
  sourceLabel : String
  sourceCount : ℕ
  targetLabel : String
  targetCount : Option ℕ
  integrity : Integrity
deriving DecidableEq

/-- The `comparison_data` list built by `render_comparison`
(src/dashboard_simple.py lines 467-538), row by row in declaration order. -/
def comparisonData (d : Data) : List CompRow :=
  [ { sourceLabel := "👥 patients"
      sourceCount := getCount d.synthea "patients"
      targetLabel := "👥 person"
      targetCount := some (getCount d.omop "person")
      integrity :=
        if getCount d.synthea "patients" = getCount d.omop "person" then
          .exact100 else .revisar }
  , { sourceLabel := "🏥 encounters"
      sourceCount := getCount d.synthea "encounters"
      targetLabel := "🏥 visit_occurrence"
      targetCount := some (getCount d.omop "visit_occurrence")
      integrity :=
        if getCount d.synthea "encounters" = getCount d.omop "visit_occurrence" then
          .exact100 else .revisar }
  , { sourceLabel := "🔬 conditions"
      sourceCount := getCount d.synthea "conditions"
      targetLabel := "🔬 condition_occurrence"
      targetCount := some (getCount d.omop "condition_occurrence")
      integrity :=
        if getCount d.synthea "conditions" = getCount d.omop "condition_occurrence" then
          .exact100 else .revisar }
  , { sourceLabel := "💊 medications"
      sourceCount := getCount d.synthea "medications"
      targetLabel := "💊 drug_exposure"
      targetCount := some (getCount d.omop "drug_exposure")
      integrity :=
        if getCount d.synthea "medications" = getCount d.omop "drug_exposure" then
          .exact100 else .revisar }
  , { sourceLabel := "⚕️ procedures"
      sourceCount := getCount d.synthea "procedures"
      targetLabel := "⚕️ procedure_occurrence"
      targetCount := some (getCount d.omop "procedure_occurrence")
      integrity :=
        if getCount d.synthea "procedures" = getCount d.omop "procedure_occurrence" then
          .exact100 else .revisar }
  , { sourceLabel := "📊 observations"
      sourceCount := getCount d.synthea "observations"
      targetLabel := "📊 measurement + observation"
      targetCount := some (getCount d.omop "measurement" + getCount d.omop "observation")
      integrity :=
        if 0 < getCount d.omop "measurement" + getCount d.omop "observation" then
          .dividido else .revisar }
  , { sourceLabel := "🏥 organizations"
      sourceCount := getCount d.synthea "organizations"
      targetLabel := "🏥 care_site + location"
      targetCount := some (getCount d.omop "care_site" + getCount d.omop "location")
      integrity :=
        if 0 < getCount d.omop "care_site" + getCount d.omop "location" then
          .dividido else .revisar }
  , { sourceLabel := "👨‍⚕️ providers"
      sourceCount := getCount d.synthea "providers"
      targetLabel := "👨‍⚕️ provider"
      targetCount := some (getCount d.omop "provider")
      integrity :=
        if getCount d.synthea "providers" = getCount d.omop "provider" then
          .exact100 else .revisar }
  , { sourceLabel := "👥 patients (períodos)"
      sourceCount := getCount d.synthea "patients"
      targetLabel := "📅 observation_period"
      targetCount := some (getCount d.omop "observation_period")
      integrity :=
        if getCount d.synthea "patients" = getCount d.omop "observation_period" then
          .exact100 else .revisar }
  , { sourceLabel := "🤧 allergies"
      sourceCount := getCount d.synthea "allergies"
      targetLabel := "📝 observation (alergias)"
      targetCount := none
      integrity :=
        if 0 < getCount d.synthea "allergies" then .transformado else .sinDatos } ]

/-- The `mapped_rate` values that are present with a numeric value, in
coverage order.  Used to state the spec-side mean. -/
def exposedRates (cc : List (String × CoverageEntry)) : List ℚ :=
  cc.filterMap fun p =>
    match p.2 with
    | .dict (some (.num q)) => some q
    | _ => none

/-- Every `mapped_rate` value that is present is numeric. -/
def coverageNumeric (cc : List (String × CoverageEntry)) : Bool :=
  cc.all fun p =>
    match p.2 with
    | .dict (some v) => v.isNum
    | _ => true

/-- The concept-mapping rate as the specification words it: the unweighted
arithmetic mean of the `mapped_rate` values that are present, and the
configured default 0.92 when there is no such value.  Stated from the spec
to be compared against the rate computed by `calculateMetrics`. -/
def meanConceptRate (r : PipelineReport) : ℚ :=
  match r.validationResults with
  | none => 23/25
  | some v =>
    if exposedRates v.conceptCoverage = [] then 23/25
    else (exposedRates v.conceptCoverage).sum / ((exposedRates v.conceptCoverage).length : ℚ)

/-- Reading a count from a count map, returning the map as well: a Python
`dict.get` does not mutate the dict. -/
def readCount (m : CountMap) (k : String) : ℕ × CountMap := (getCount m k, m)

/-- Reading the length of a count map, returning the map as well. -/
def readLen (m : CountMap) : ℕ × CountMap := (m.length, m)

/-- Reading the `validation_results` section, returning the report as well. -/
def readValidation (r : PipelineReport) :
    Option ValidationResults × PipelineReport :=
  (r.validationResults, r)

/-- Reading the `phase_performance` section, returning the report as well. -/
def readPhases (r : PipelineReport) :
    Option (List (String × Option ℚ)) × PipelineReport :=
  (r.phasePerformance, r)

/-- `calculate_metrics` with every access to its three input mappings made
explicit as a state-passing read, in the order the Python code performs
them; the final component is the state of the inputs after the call. -/
def calculateMetricsRW (d : Data) : Option Metrics × Data :=
  let (tp, s1) := readCount d.synthea "patients"
  let (te, s2) := readCount s1 "encounters"
  let (tc, s3) := readCount s2 "conditions"
  let (tm, s4) := readCount s3 "medications"
  let (tpr, s5) := readCount s4 "procedures"
  let (tob, s6) := readCount s5 "observations"
  let (op, o1) := readCount d.omop "person"
  let (ov, o2) := readCount o1 "visit_occurrence"
  let (oc, o3) := readCount o2 "condition_occurrence"
  let (od, o4) := readCount o3 "drug_exposure"
  let (opr, o5) := readCount o4 "procedure_occurrence"
  let (om, o6) := readCount o5 "measurement"
  let (oo, o7) := readCount o6 "observation"
  let (vr, r1) := readValidation d.report
  let success : ℚ :=
    match vr with
    | some v => v.overallSuccessRate.getD (19/20)
    | none => if 0 < tp then min ((op : ℚ) / (tp : ℚ)) 1 else 19/20
  let (pp, r2) := readPhases r1
  let ptime : ℚ :=
    match pp with
    | some phases => if 0 < phaseSum phases then phaseSum phases else 180
    | none => 180
  let (olen, o8) := readLen o7
  let dbc : Bool := decide (0 < olen)
  let (vr2, r3) := readValidation r2
  let crate : Option ℚ :=
    match vr2 with
    | none => some (23/25)
    | some v =>
      if v.conceptCoverage.isEmpty then some (23/25)
      else
        let rates := collectRates v.conceptCoverage
        if rates.isEmpty then some (23/25)
        else (sumRates rates).map (fun s => s / (rates.length : ℚ))
  let result : Option Metrics :=
    match crate with
    | none => none
    | some cr =>
      some ⟨tp, te, tc, tm, tpr, tob, op, ov, oc, od, opr, om, oo,
        success, ptime, dbc, cr⟩
  (result, ⟨s6, o8, r3⟩)

/-- A default row, only used to state lookups into the comparison table. -/
def defaultRow : CompRow := ⟨"", 0, "", none, .revisar⟩

/-- Scenario-B style input: 30 source patients, 28 target persons, no
pipeline report. -/
def dataB : Data := ⟨[("patients", 30)], [("person", 28)], emptyReport⟩

/-- Input whose report has `validation_results` without
`overall_success_rate`, while the counts would support the derived ratio. -/
def dataVR : Data := ⟨[("patients", 30)], [("person", 28)], ⟨some ⟨none, []⟩, none⟩⟩

/-- Input whose report carries an out-of-range `overall_success_rate` 1.5. -/
def dataHigh : Data := ⟨[("patients", 30)], [("person", 28)], ⟨some ⟨some (3/2), []⟩, none⟩⟩

/-- Input whose target side has one entry, with count 0. -/
def dataZeroTarget : Data := ⟨[], [("person", 0)], emptyReport⟩

/-- The entirely empty input: no source counts, no target counts, no report. -/
def dataEmpty : Data := ⟨[], [], emptyReport⟩

/-- Input whose report has one coverage entry with a non-numeric
`mapped_rate`. -/
def dataMalformed : Data :=
  ⟨[], [], ⟨some ⟨none, [("conditions", .dict (some (.str "alta")))]⟩, none⟩⟩

/-- Scenario-D input: coverage with conditions mapped at 0.467 and drugs at
0.88. -/
def dataD : Data :=
  ⟨[], [], ⟨some ⟨none, [("conditions", .dict (some (.num (467/1000)))),
      ("drugs", .dict (some (.num (22/25))))]⟩, none⟩⟩

/-- Input with three declared phases: 100 s, a phase without
`duration_seconds`, and 50 s. -/
def dataP : Data :=
  ⟨[], [], ⟨none, some [("load", some 100), ("transform", none), ("write", some 50)]⟩⟩

/-- Scenario-C input: 50 source observations split into 20 measurements and
30 observations. -/
def dataC : Data :=
  ⟨[("observations", 50)], [("measurement", 20), ("observation", 30)], emptyReport⟩

/-- Unpacking a successful `calculateMetrics` run into its scalar fields. -/
theorem calculateMetrics_some (d : Data) (m : Metrics)
    (h : calculateMetrics d = some m) :
    m.successRate = successRate d ∧ m.processingTime = processingTime d ∧
    m.dbConnected = decide (0 < d.omop.length) ∧
    conceptRate d = some m.conceptRate := by
  unfold calculateMetrics at h
  cases hc : conceptRate d with
  | none => rw [hc] at h; cases h
  | some cr => rw [hc] at h; cases h; exact ⟨rfl, rfl, rfl, rfl⟩

/-- `conceptRate` with `validation_results` present, phrased through the
collected rates only: the emptiness test on the coverage dict is subsumed by
the emptiness test on the collected rates. -/
theorem conceptRate_some (d : Data) (v : ValidationResults)
    (hv : d.report.validationResults = some v) :
    conceptRate d =
      if (collectRates v.conceptCoverage).isEmpty then some (23/25)
      else (sumRates (collectRates v.conceptCoverage)).map
        (fun s => s / ((collectRates v.conceptCoverage).length : ℚ)) := by
  simp only [conceptRate, hv]
  cases hcc : v.conceptCoverage with
  | nil => rfl
  | cons hd tl => simp

/-- `calculateMetrics` succeeds (no exception) if and only if summing the
collected rates succeeds. -/
theorem calculateMetrics_isSome (d : Data) :
    (calculateMetrics d).isSome = (conceptRate d).isSome := by
  unfold calculateMetrics
  cases conceptRate d <;> rfl

/-- When every present `mapped_rate` is numeric, the collected rates are the
numeric rates. -/
theorem collectRates_of_numeric (cc : List (String × CoverageEntry))
    (h : coverageNumeric cc = true) :
    collectRates cc = (exposedRates cc).map JVal.num := by
  induction cc with
  | nil => rfl
  | cons hd tl ih =>
    rw [coverageNumeric, List.all_cons, Bool.and_eq_true] at h
    obtain ⟨h1, h2⟩ := h
    have ih2 := ih h2
    cases he : hd.2 with
    | nondict => simp [collectRates, exposedRates, List.filterMap_cons, he] at ih2 ⊢
                 exact ih2
    | dict mr =>
      cases mr with
      | none => simp [collectRates, exposedRates, List.filterMap_cons, he] at ih2 ⊢
                exact ih2
      | some v =>
        cases v with
        | str s => rw [he] at h1; cases h1
        | num q =>
          simp [collectRates, exposedRates, List.filterMap_cons, he] at ih2 ⊢
          exact ih2

/-- Python `sum` over a list of numbers succeeds and computes the sum. -/
theorem sumRates_map_num (qs : List ℚ) :
    sumRates (qs.map JVal.num) = some qs.sum := by
  induction qs with
  | nil => rfl
  | cons q tl ih => simp [sumRates, ih]

/-- C1.  The three-tier fallback for `success_rate`, as the code implements
it: a reported `overall_success_rate` is used verbatim; but when the report
has a `validation_results` section without that rate, the configured default
0.95 is used, and the derived ratio `min(person / patients, 1.0)` is reached
only when the `validation_results` section is absent altogether and
`patients > 0`; with no `validation_results` and no patients, the default. -/
theorem C1_success_rate_tiers (d : Data) (m : Metrics)
    (h : calculateMetrics d = some m) :
    (∀ v q, d.report.validationResults = some v → v.overallSuccessRate = some q →
      m.successRate = q) ∧
    (∀ v, d.report.validationResults = some v → v.overallSuccessRate = none →
      m.successRate = 19/20) ∧
    (d.report.validationResults = none → 0 < getCount d.synthea "patients" →
      m.successRate =
        min ((getCount d.omop "person" : ℚ) / (getCount d.synthea "patients" : ℚ)) 1) ∧
    (d.report.validationResults = none → getCount d.synthea "patients" = 0 →
      m.successRate = 19/20) := by
  have hs := (calculateMetrics_some d m h).1
  refine ⟨?_, ?_, ?_, ?_⟩
  · intro v q hv hq
    rw [hs]; simp [successRate, hv, hq]
  · intro v hv hq
    rw [hs]; simp [successRate, hv, hq]
  · intro hv hp
    rw [hs]; simp [successRate, hv, hp]
  · intro hv hp
    rw [hs]; simp [successRate, hv, hp]

/-- C1 witness: on scenario-B data (30 patients, 28 persons, no report) the
derived-ratio tier applies and yields 28/30. -/
theorem C1_success_rate_tiers_witness :
    (calculateMetrics dataB).map Metrics.successRate = some (14/15) := by
  have hsome : (calculateMetrics dataB).isSome = true := rfl
  rcases hm : calculateMetrics dataB with _ | m
  · rw [hm] at hsome; cases hsome
  · have h3 := (C1_success_rate_tiers dataB m hm).2.2.1 rfl (by decide)
    have hper : getCount dataB.omop "person" = 28 := by decide
    have hpat : getCount dataB.synthea "patients" = 30 := by decide
    have hle : ((28 : ℕ) : ℚ) / ((30 : ℕ) : ℚ) ≤ 1 := by norm_num
    rw [Option.map_some', h3, hper, hpat, min_eq_left hle]
    norm_num

/-- C1 counterexample: with a report whose `validation_results` lacks
`overall_success_rate` and 30 patients against 28 persons, the code yields
the default 0.95, not the derived ratio min(28/30, 1) the claim requires. -/
theorem C1_counterexample :
    (calculateMetrics dataVR).map Metrics.successRate = some (19/20) ∧
    (19/20 : ℚ) ≠ min ((28 : ℚ)/30) 1 := by
  refine ⟨rfl, ?_⟩
  rw [min_eq_left (by norm_num : (28 : ℚ)/30 ≤ 1)]
  norm_num

/-- C2.  The computed `success_rate` lies in [0, 1] whenever the report does
not carry `overall_success_rate`; a carried rate is propagated verbatim,
without clamping, so the bound only holds for the derived and default
tiers. -/
theorem C2_success_rate_bounded (d : Data) (m : Metrics)
    (h : calculateMetrics d = some m)
    (hrep : ∀ v, d.report.validationResults = some v →
      v.overallSuccessRate = none) :
    0 ≤ m.successRate ∧ m.successRate ≤ 1 := by
  have hs := (calculateMetrics_some d m h).1
  rw [hs]
  cases hv : d.report.validationResults with
  | some v => simp [successRate, hv, hrep v hv]; norm_num
  | none =>
    simp only [successRate, hv]
    split_ifs with hp
    · exact ⟨le_min (div_nonneg (Nat.cast_nonneg _) (Nat.cast_nonneg _)) zero_le_one,
        min_le_right _ _⟩
    · norm_num

/-- C2 witness: on scenario-B data the derived rate 28/30 is within
bounds. -/
theorem C2_success_rate_bounded_witness :
    0 ≤ ((calculateMetrics dataB).map Metrics.successRate).getD 0 ∧
    ((calculateMetrics dataB).map Metrics.successRate).getD 0 ≤ 1 := by
  have hsome : (calculateMetrics dataB).isSome = true := rfl
  rcases hm : calculateMetrics dataB with _ | m
  · rw [hm] at hsome; cases hsome
  · have hb := C2_success_rate_bounded dataB m hm
      (fun v hv => by simp [dataB, emptyReport] at hv)
    simpa using hb

/-- C2 counterexample: a reported `overall_success_rate` of 1.5 is passed
through verbatim, so the computed `success_rate` exceeds 1. -/
theorem C2_counterexample :
    (calculateMetrics dataHigh).map Metrics.successRate = some (3/2) ∧
    ¬((3/2 : ℚ) ≤ 1) := ⟨rfl, by norm_num⟩

/-- C3.  `db_connected` is `len(omop) > 0`: it is true exactly when the
target-count mapping has at least one entry, whatever the counts are. -/
theorem C3_db_connected_iff_nonempty (d : Data) (m : Metrics)
    (h : calculateMetrics d = some m) :
    m.dbConnected = true ↔ d.omop ≠ [] := by
  rw [(calculateMetrics_some d m h).2.2.1]
  simp [List.length_pos]

/-- C3 witness: with the single target entry person = 0 the flag is true. -/
theorem C3_db_connected_iff_nonempty_witness :
    (calculateMetrics dataZeroTarget).map Metrics.dbConnected = some true := by
  have hsome : (calculateMetrics dataZeroTarget).isSome = true := rfl
  rcases hm : calculateMetrics dataZeroTarget with _ | m
  · rw [hm] at hsome; cases hsome
  · have h3 := (C3_db_connected_iff_nonempty dataZeroTarget m hm).mpr
      (by simp [dataZeroTarget])
    rw [Option.map_some', h3]

/-- C3 counterexample: every present target entry has count 0, yet
`db_connected` is true, because the code tests the number of entries, not
the counts. -/
theorem C3_counterexample :
    (calculateMetrics dataZeroTarget).map Metrics.dbConnected = some true ∧
    dataZeroTarget.omop.all (fun p => p.2 == 0) = true := ⟨rfl, rfl⟩

/-- C4.  The only row of the comparison table whose classification can be
the no-data one is the allergies row, and for that row the classification is
no-data exactly when its source count is 0; in particular no 1:1 row is ever
classified no-data, however small its counts. -/
theorem C4_no_data_only_allergies (d : Data) :
    ∀ r ∈ comparisonData d,
      (r.integrity = Integrity.sinDatos ↔
        r.sourceLabel = "🤧 allergies" ∧ getCount d.synthea "allergies" = 0) := by
  intro r hr
  simp only [comparisonData, List.mem_cons, List.not_mem_nil, or_false] at hr
  rcases hr with rfl | rfl | rfl | rfl | rfl | rfl | rfl | rfl | rfl | rfl <;>
    constructor <;> intro hx
  all_goals first
    | (obtain ⟨h1, h2⟩ := hx; simp_all)
    | (revert hx; split_ifs with hif <;> intro hx <;> simp_all <;> omega)

/-- C4 witness: with no allergies in the source, the allergies row is
classified no-data. -/
theorem C4_no_data_only_allergies_witness :
    ((comparisonData dataEmpty).getD 9 defaultRow).integrity =
      Integrity.sinDatos := by
  have hmem : (comparisonData dataEmpty).getD 9 defaultRow ∈
      comparisonData dataEmpty := by decide
  exact (C4_no_data_only_allergies dataEmpty _ hmem).mpr ⟨rfl, rfl⟩

/-- C4 counterexample: with every count 0, the patients row (a 1:1
correspondence with both counts 0) is classified as exact 100% integrity,
not as no-data. -/
theorem C4_counterexample :
    (comparisonData dataEmpty).head? =
      some ⟨"👥 patients", 0, "👥 person", some 0, Integrity.exact100⟩ ∧
    Integrity.exact100 ≠ Integrity.sinDatos := ⟨rfl, by decide⟩

/-- C5.  On an entirely unavailable snapshot (no source counts, no target
counts, no report) `calculate_metrics` does not fail: it returns the
configured defaults — success rate 0.95, processing time 180 s, concept
rate 0.92, and a disconnected flag — indistinguishable in shape from a
measured result; the only no-data signal in the program is the presentation
layer checking `total_patients == 0`. -/
theorem C5_empty_snapshot_defaults :
    calculateMetrics dataEmpty =
      some ⟨0, 0, 0, 0, 0, 0, 0, 0, 0, 0, 0, 0, 0, 19/20, 180, false, 23/25⟩ := rfl

/-- C5 counterexample: the computation on the entirely-missing snapshot
succeeds and reports the default success rate 0.95 as its result, rather
than surfacing any hard failure. -/
theorem C5_counterexample :
    (calculateMetrics dataEmpty).isSome = true ∧
    (calculateMetrics dataEmpty).map Metrics.successRate = some (19/20) :=
  ⟨rfl, rfl⟩

/-- C6.  A coverage entry that is not a dict, or whose dict lacks
`mapped_rate`, is skipped: removing it from the coverage mapping leaves the
whole metrics computation unchanged.  (An entry whose `mapped_rate` is
present but non-numeric is, by contrast, fatal — see the counterexample.) -/
theorem C6_malformed_entry_skipped
    (s o : CountMap) (rate : Option ℚ) (pp : Option (List (String × Option ℚ)))
    (k : String) (e : CoverageEntry) (cc₁ cc₂ : List (String × CoverageEntry))
    (he : e = CoverageEntry.nondict ∨ e = CoverageEntry.dict none) :
    calculateMetrics ⟨s, o, ⟨some ⟨rate, cc₁ ++ (k, e) :: cc₂⟩, pp⟩⟩ =
      calculateMetrics ⟨s, o, ⟨some ⟨rate, cc₁ ++ cc₂⟩, pp⟩⟩ := by
  have hrates : collectRates (cc₁ ++ (k, e) :: cc₂) = collectRates (cc₁ ++ cc₂) := by
    unfold collectRates
    rw [List.filterMap_append, List.filterMap_append, List.filterMap_cons]
    rcases he with rfl | rfl <;> rfl
  have hcr : conceptRate ⟨s, o, ⟨some ⟨rate, cc₁ ++ (k, e) :: cc₂⟩, pp⟩⟩ =
      conceptRate ⟨s, o, ⟨some ⟨rate, cc₁ ++ cc₂⟩, pp⟩⟩ := by
    rw [conceptRate_some _ ⟨rate, cc₁ ++ (k, e) :: cc₂⟩ rfl,
      conceptRate_some _ ⟨rate, cc₁ ++ cc₂⟩ rfl]
    simp only [hrates]
  unfold calculateMetrics
  rw [hcr]
  cases conceptRate ⟨s, o, ⟨some ⟨rate, cc₁ ++ cc₂⟩, pp⟩⟩ <;> rfl

/-- C6 witness: dropping a dict entry without `mapped_rate` does not change
the computed metrics. -/
theorem C6_malformed_entry_skipped_witness :
    calculateMetrics ⟨[], [], ⟨some ⟨none, [("conditions", .dict none),
        ("drugs", .dict (some (.num (22/25))))]⟩, none⟩⟩ =
      calculateMetrics ⟨[], [],
        ⟨some ⟨none, [("drugs", .dict (some (.num (22/25))))]⟩, none⟩⟩ :=
  C6_malformed_entry_skipped [] [] none none "conditions" (.dict none) []
    [("drugs", .dict (some (.num (22/25))))] (Or.inr rfl)

/-- C6 counterexample: a coverage entry whose `mapped_rate` is present but
non-numeric makes the whole metrics computation fail (the Python `sum`
raises), instead of being treated as absent. -/
theorem C6_counterexample : calculateMetrics dataMalformed = none := rfl

/-- C7.  When every `mapped_rate` that is present is numeric (the shape the
data model prescribes), the computed concept-mapping rate is exactly the
spec-side `meanConceptRate`: the unweighted arithmetic mean of the present
`mapped_rate` values, entries without the field skipped, and the configured
default 0.92 when no value is present (including an absent
`validation_results` section). -/
theorem C7_concept_rate_mean (d : Data) (m : Metrics)
    (h : calculateMetrics d = some m)
    (hnum : ∀ v, d.report.validationResults = some v →
      coverageNumeric v.conceptCoverage = true) :
    m.conceptRate = meanConceptRate d.report := by
  have hcr := (calculateMetrics_some d m h).2.2.2
  cases hv : d.report.validationResults with
  | none =>
    unfold conceptRate at hcr
    rw [hv] at hcr
    simp only [meanConceptRate, hv]
    exact (Option.some_inj.mp hcr).symm
  | some v =>
    simp only [meanConceptRate, hv]
    have hcol := collectRates_of_numeric _ (hnum v hv)
    rw [conceptRate_some d v hv, hcol] at hcr
    by_cases hq : exposedRates v.conceptCoverage = []
    · rw [hq] at hcr
      rw [if_pos hq]
      exact (Option.some_inj.mp hcr).symm
    · have hne : ((exposedRates v.conceptCoverage).map JVal.num).isEmpty = false := by
        simp [List.isEmpty_iff, hq]
      rw [hne] at hcr
      simp only [Bool.false_eq_true, if_false, sumRates_map_num, Option.map_some',
        List.length_map] at hcr
      rw [if_neg hq]
      exact (Option.some_inj.mp hcr).symm

/-- C7 witness: scenario D — coverage with rates 0.467 and 0.88 yields the
mean 0.6735. -/
theorem C7_concept_rate_mean_witness :
    (calculateMetrics dataD).map Metrics.conceptRate = some (6735/10000) := by
  have hsome : (calculateMetrics dataD).isSome = true := rfl
  rcases hm : calculateMetrics dataD with _ | m
  · rw [hm] at hsome; cases hsome
  · have hc := C7_concept_rate_mean dataD m hm (fun v hv => by cases hv; rfl)
    rw [Option.map_some', hc]
    have hex : exposedRates [("conditions", CoverageEntry.dict (some (.num (467/1000)))),
        ("drugs", CoverageEntry.dict (some (.num (22/25))))] = [467/1000, 22/25] := rfl
    have hmean : meanConceptRate dataD.report = (467/1000 + 22/25) / 2 := by
      have hne : ([467/1000, 22/25] : List ℚ) ≠ [] := by simp
      simp only [meanConceptRate, dataD, hex, if_neg hne, List.sum_cons, List.sum_nil,
        List.length_cons, List.length_nil]
      norm_num
    rw [hmean]
    norm_num

/-- C8.  `processing_seconds` is the sum of the declared phase durations
(absent `duration_seconds` contributing 0) when `phase_performance` is
present and the sum is positive, and the default 180 when the section is
missing or the sum is zero. -/
theorem C8_processing_time (d : Data) (m : Metrics)
    (h : calculateMetrics d = some m) :
    (∀ phases, d.report.phasePerformance = some phases →
      0 < phaseSum phases → m.processingTime = phaseSum phases) ∧
    (d.report.phasePerformance = none → m.processingTime = 180) ∧
    (∀ phases, d.report.phasePerformance = some phases →
      phaseSum phases = 0 → m.processingTime = 180) := by
  have hp := (calculateMetrics_some d m h).2.1
  refine ⟨?_, ?_, ?_⟩
  · intro ph hph hpos
    rw [hp]; simp [processingTime, hph, hpos]
  · intro hph
    rw [hp]; simp [processingTime, hph]
  · intro ph hph hz
    rw [hp]; simp [processingTime, hph, hz]

/-- C8 witness: phases of 100 s, one without a duration, and 50 s sum to a
positive 150 s, which is the reported processing time. -/
theorem C8_processing_time_witness :
    (calculateMetrics dataP).map Metrics.processingTime = some 150 := by
  have hsome : (calculateMetrics dataP).isSome = true := rfl
  rcases hm : calculateMetrics dataP with _ | m
  · rw [hm] at hsome; cases hsome
  · have hsum : phaseSum [("load", some 100), ("transform", none), ("write", some 50)]
        = 150 := by
      simp [phaseSum]
      norm_num
    have h8 := (C8_processing_time dataP m hm).1 _ rfl (by rw [hsum]; norm_num)
    rw [Option.map_some', h8, hsum]

/-- C9.  Each of the two declared 1:many rows of the comparison table — the
observations row (measurement + observation) and the organizations row
(care_site + location) — carries the exact sum of its target counts, and is
classified as the split (transformed) classification whenever that sum is
positive. -/
theorem C9_split_rows (d : Data) :
    ∀ r ∈ comparisonData d,
      (r.sourceLabel = "📊 observations" →
        r.targetCount = some (getCount d.omop "measurement" + getCount d.omop "observation") ∧
        (0 < getCount d.omop "measurement" + getCount d.omop "observation" →
          r.integrity = Integrity.dividido)) ∧
      (r.sourceLabel = "🏥 organizations" →
        r.targetCount = some (getCount d.omop "care_site" + getCount d.omop "location") ∧
        (0 < getCount d.omop "care_site" + getCount d.omop "location" →
          r.integrity = Integrity.dividido)) := by
  intro r hr
  simp only [comparisonData, List.mem_cons, List.not_mem_nil, or_false] at hr
  rcases hr with rfl | rfl | rfl | rfl | rfl | rfl | rfl | rfl | rfl | rfl <;>
    constructor <;> intro hlab
  all_goals first
    | (refine ⟨rfl, fun hpos => ?_⟩; simp [hpos])
    | (exact absurd hlab (by simp))

/-- C9 witness: scenario C — 50 source observations against measurement = 20
and observation = 30 gives target count 50 and the split classification. -/
theorem C9_split_rows_witness :
    ((comparisonData dataC).getD 5 defaultRow).targetCount = some 50 ∧
    ((comparisonData dataC).getD 5 defaultRow).integrity = Integrity.dividido := by
  have hmem : (comparisonData dataC).getD 5 defaultRow ∈ comparisonData dataC := by
    decide
  have h9 := ((C9_split_rows dataC) _ hmem).1 (by decide)
  exact ⟨h9.1.trans (by decide), h9.2 (by decide)⟩

/-- C10.  The metrics computation only reads its inputs: running
`calculate_metrics` with every dict access made explicit as a state-passing
read returns the three input mappings exactly as they were passed in, and
computes the same result as the direct function. -/
theorem C10_no_mutation (d : Data) :
    (calculateMetricsRW d).2 = d ∧ (calculateMetricsRW d).1 = calculateMetrics d := by
  obtain ⟨s, o, r⟩ := d
  obtain ⟨vr, pp⟩ := r
  constructor
  · rfl
  · unfold calculateMetricsRW calculateMetrics conceptRate successRate processingTime
    cases vr <;> cases pp <;> rfl

end DashboardSimple
